import Mathlib

/-!
Shallow embedding of the halfmoon-cross-bridge NEAR contract (src/src/lib.rs).

The contract keeps a fixed owner account and a keyed store
(`LookupMap<AccountId, BridgeRequest>`) mapping each requester to at most one
bridge request.  The store is modelled as an association list with
first-match lookup and in-place overwrite on insert, matching the keyed
point-access semantics of `LookupMap`.

Each mutating contract method is modelled as a function from the contract
state (plus the host-supplied inputs: the predecessor account id and, for
`add_bridge_request`, the attached deposit) to a pair
`(state after the call, Except BridgeError Unit)`.  The first component
records exactly the store writes the Rust code performed before it
terminated; a host-level abort (`env::panic_str` / `unimplemented!` /
failed `assert!`) is modelled as `Except.error` carrying the corresponding
error kind.  In the source every abort happens before the single
`self.requests.insert` call of the method, so an errored call returns the
input state unchanged; that is proved below, not assumed.
-/

/-- Account identifiers are strings (NEAR `AccountId`). -/
abbrev AccountId := String

/-- Status type `RequestStatus` from src/src/lib.rs lines 6-12. -/
inductive RequestStatus where
  | Created : RequestStatus
  | Doing : (to_txn_hash : String) → RequestStatus
  | Error : (to_txn_hash : String) → (error : String) → RequestStatus
  | Done : (to_txn_hash : String) → RequestStatus
deriving DecidableEq

/-- Record type `BridgeRequest` from src/src/lib.rs lines 14-22. -/
structure BridgeRequest where
  to_blockchain : String
  to_token : String
  to_address : String
  from_token_address : Option String
  from_amount_atom : String
  status : RequestStatus
deriving DecidableEq

/-- First-match lookup in the keyed store (`LookupMap::get`). -/
def mapGet (m : List (AccountId × BridgeRequest)) (k : AccountId) :
    Option BridgeRequest :=
  match m with
  | [] => none
  | (k1, v1) :: rest => if k1 = k then some v1 else mapGet rest k

/-- Insert-or-overwrite in the keyed store (`LookupMap::insert`). -/
def mapInsert (m : List (AccountId × BridgeRequest)) (k : AccountId)
    (v : BridgeRequest) : List (AccountId × BridgeRequest) :=
  match m with
  | [] => [(k, v)]
  | (k1, v1) :: rest =>
    if k1 = k then (k, v) :: rest else (k1, v1) :: mapInsert rest k v

/-- Contract state: fixed owner and the request store
(src/src/lib.rs lines 26-29). -/
structure HalfmoonCrossBridge where
  owner : AccountId
  requests : List (AccountId × BridgeRequest)
deriving DecidableEq

/-- Error kinds for the aborts in the source, named per the spec taxonomy:
`NotOwner` = "only allowed by owner", `RequestNotFound` = "expect request
exist", `InvalidTransition` carries the "expect request to be ..." message,
`UnfinishedRequestExists` = "unfinished request", `NotImplemented` =
the `unimplemented!` abort, `InvalidOwner` / `AlreadyInitialized` = the two
failed assertions in `new`. -/
inductive BridgeError where
  | NotOwner : BridgeError
  | RequestNotFound : BridgeError
  | InvalidTransition : (expected : String) → BridgeError
  | UnfinishedRequestExists : BridgeError
  | NotImplemented : BridgeError
  | InvalidOwner : BridgeError
  | AlreadyInitialized : BridgeError
deriving DecidableEq

/-- Constructor `new` (src/src/lib.rs lines 40-50).  The host-environment facts it
consults — whether instance state already exists (`env::state_exists`) and
the account-id validity predicate (`env::is_valid_account_id`, part of the
NEAR SDK, not of this repository) — are passed in as explicit parameters. -/
def HalfmoonCrossBridge.new (state_exists : Bool)
    (is_valid_account_id : AccountId → Bool) (owner_id : AccountId) :
    Except BridgeError HalfmoonCrossBridge :=
  if ¬ is_valid_account_id owner_id then
    .error .InvalidOwner
  else if state_exists then
    .error .AlreadyInitialized
  else
    .ok { owner := owner_id, requests := [] }

/-- Method `add_bridge_request` (src/src/lib.rs lines 52-80).  `predecessor` is
`env::predecessor_account_id()` and `attached_deposit` is
`env::attached_deposit()` (an unsigned integer, rendered in decimal by
`to_string`). -/
def HalfmoonCrossBridge.add_bridge_request (self : HalfmoonCrossBridge)
    (predecessor : AccountId) (attached_deposit : Nat)
    (to_blockchain to_token to_address : String)
    (from_token_address : Option String) :
    HalfmoonCrossBridge × Except BridgeError Unit :=
  let account_id := predecessor
  if from_token_address.isSome then
    (self, .error .NotImplemented)
  else
    let request : BridgeRequest :=
      { to_blockchain := to_blockchain, to_token := to_token,
        to_address := to_address, from_token_address := from_token_address,
        from_amount_atom := toString attached_deposit,
        status := .Created }
    match mapGet self.requests account_id with
    | some existing_request =>
      match existing_request.status with
      | .Error _ _ =>
        ({ self with requests := mapInsert self.requests account_id request },
          .ok ())
      | .Done _ =>
        ({ self with requests := mapInsert self.requests account_id request },
          .ok ())
      | _ => (self, .error .UnfinishedRequestExists)
    | none =>
      ({ self with requests := mapInsert self.requests account_id request },
        .ok ())

/-- Method `set_request_doing` (src/src/lib.rs lines 82-99). -/
def HalfmoonCrossBridge.set_request_doing (self : HalfmoonCrossBridge)
    (predecessor : AccountId) (account_id : AccountId)
    (to_txn_hash : String) : HalfmoonCrossBridge × Except BridgeError Unit :=
  if predecessor ≠ self.owner then
    (self, .error .NotOwner)
  else
    match mapGet self.requests account_id with
    | some existing_request =>
      match existing_request.status with
      | .Created =>
        let updated := { existing_request with
          status := RequestStatus.Doing to_txn_hash }
        ({ self with requests := mapInsert self.requests account_id updated },
          .ok ())
      | _ => (self, .error (.InvalidTransition "expect request to be Created"))
    | none => (self, .error .RequestNotFound)

/-- Method `set_request_done` (src/src/lib.rs lines 101-118). -/
def HalfmoonCrossBridge.set_request_done (self : HalfmoonCrossBridge)
    (predecessor : AccountId) (account_id : AccountId) :
    HalfmoonCrossBridge × Except BridgeError Unit :=
  if predecessor ≠ self.owner then
    (self, .error .NotOwner)
  else
    match mapGet self.requests account_id with
    | some existing_request =>
      match existing_request.status with
      | .Doing to_txn_hash =>
        let updated := { existing_request with
          status := RequestStatus.Done to_txn_hash }
        ({ self with requests := mapInsert self.requests account_id updated },
          .ok ())
      | _ => (self, .error (.InvalidTransition "expect request to be Doing"))
    | none => (self, .error .RequestNotFound)

/-- Method `set_request_error` (src/src/lib.rs lines 120-137). -/
def HalfmoonCrossBridge.set_request_error (self : HalfmoonCrossBridge)
    (predecessor : AccountId) (account_id : AccountId) (error : String) :
    HalfmoonCrossBridge × Except BridgeError Unit :=
  if predecessor ≠ self.owner then
    (self, .error .NotOwner)
  else
    match mapGet self.requests account_id with
    | some existing_request =>
      match existing_request.status with
      | .Doing to_txn_hash =>
        let updated := { existing_request with
          status := RequestStatus.Error to_txn_hash error }
        ({ self with requests := mapInsert self.requests account_id updated },
          .ok ())
      | _ => (self, .error (.InvalidTransition "expect request to be Doing"))
    | none => (self, .error .RequestNotFound)

/-- Method `get_request_status` (src/src/lib.rs lines 139-141): pure read. -/
def HalfmoonCrossBridge.get_request_status (self : HalfmoonCrossBridge)
    (account_id : AccountId) : Option BridgeRequest :=
  mapGet self.requests account_id

-- Scratch sanity checks mirroring the source's own unit tests.

/-- Sample record used in concrete witnesses, matching the source tests. -/
def sampleReq (st : RequestStatus) : BridgeRequest :=
  { to_blockchain := "Algorand", to_token := "goNEAR", to_address := "ADDR1",
    from_token_address := none, from_amount_atom := "0", status := st }

/-- Sample one-entry contract state used in concrete witnesses. -/
def sampleState (st : RequestStatus) : HalfmoonCrossBridge :=
  { owner := "op", requests := [("alice", sampleReq st)] }

/-- Sample empty contract state used in concrete witnesses. -/
def emptyState : HalfmoonCrossBridge :=
  { owner := "op", requests := [] }

example :
    (emptyState.add_bridge_request "alice" 0 "Algorand" "goNEAR" "ADDR1"
      none).2 = .ok () := rfl

example :
    ((emptyState.add_bridge_request "alice" 0 "Algorand" "goNEAR" "ADDR1"
      none).1.get_request_status "alice") =
    some (sampleReq .Created) := rfl

example :
    ((sampleState .Created).set_request_doing "op" "alice" "HASH1").2 =
    .ok () := rfl

example :
    ((sampleState .Created).set_request_done "op" "alice").2 =
    .error (.InvalidTransition "expect request to be Doing") := rfl

example :
    (emptyState.set_request_doing "alice" "bob" "H").2 =
    .error .NotOwner := rfl

/-- Abbreviation for the single store write that a successful transition
performs: the record found for `k` is written back with only its status
replaced. -/
def writeBack (s : HalfmoonCrossBridge) (k : AccountId) (r : BridgeRequest)
    (st : RequestStatus) : HalfmoonCrossBridge :=
  { s with requests := mapInsert s.requests k { r with status := st } }

/-- Candidate record built by `add_bridge_request` on the native-funded
path (src/src/lib.rs lines 60-72 with `from_token_address = None`). -/
def newRequest (to_blockchain to_token to_address : String)
    (attached_deposit : Nat) : BridgeRequest :=
  { to_blockchain := to_blockchain, to_token := to_token,
    to_address := to_address, from_token_address := none,
    from_amount_atom := toString attached_deposit,
    status := .Created }

/-- Abbreviation for overwriting the slot of `k` with record `v`. -/
def insertRequest (s : HalfmoonCrossBridge) (k : AccountId)
    (v : BridgeRequest) : HalfmoonCrossBridge :=
  { s with requests := mapInsert s.requests k v }

/-- Boolean store invariant: every stored record has no
`from_token_address`. -/
def storeOk (m : List (AccountId × BridgeRequest)) : Bool :=
  m.all (fun kv => kv.2.from_token_address.isNone)

theorem mapGet_mapInsert (m : List (AccountId × BridgeRequest))
    (k q : AccountId) (v : BridgeRequest) :
    mapGet (mapInsert m k v) q = if k = q then some v else mapGet m q := by
  induction m with
  | nil => simp [mapGet, mapInsert]
  | cons hd tl ih =>
    obtain ⟨k1, v1⟩ := hd
    by_cases h1 : k1 = k
    · subst h1
      by_cases h2 : k1 = q <;> simp [mapGet, mapInsert, h2]
    · by_cases h2 : k1 = q
      · subst h2
        have hkq : k ≠ k1 := fun h => h1 h.symm
        simp [mapGet, mapInsert, h1, hkq]
      · simp [mapGet, mapInsert, h1, h2, ih]

theorem set_request_doing_spec_none (s : HalfmoonCrossBridge)
    (k hsh : String) (hget : mapGet s.requests k = none) :
    s.set_request_doing s.owner k hsh = (s, .error .RequestNotFound) := by
  simp [HalfmoonCrossBridge.set_request_doing, hget]

theorem set_request_doing_spec_some (s : HalfmoonCrossBridge)
    (k hsh : String) (r : BridgeRequest)
    (hget : mapGet s.requests k = some r) :
    s.set_request_doing s.owner k hsh =
      match r.status with
      | RequestStatus.Created =>
        (writeBack s k r (RequestStatus.Doing hsh), Except.ok ())
      | _ =>
        (s, Except.error
          (BridgeError.InvalidTransition "expect request to be Created")) := by
  cases hst : r.status <;>
    simp [HalfmoonCrossBridge.set_request_doing, hget, hst, writeBack]

theorem set_request_done_spec_none (s : HalfmoonCrossBridge)
    (k : String) (hget : mapGet s.requests k = none) :
    s.set_request_done s.owner k = (s, .error .RequestNotFound) := by
  simp [HalfmoonCrossBridge.set_request_done, hget]

theorem set_request_done_spec_some (s : HalfmoonCrossBridge)
    (k : String) (r : BridgeRequest)
    (hget : mapGet s.requests k = some r) :
    s.set_request_done s.owner k =
      match r.status with
      | RequestStatus.Doing th =>
        (writeBack s k r (RequestStatus.Done th), Except.ok ())
      | _ =>
        (s, Except.error
          (BridgeError.InvalidTransition "expect request to be Doing")) := by
  cases hst : r.status <;>
    simp [HalfmoonCrossBridge.set_request_done, hget, hst, writeBack]

theorem set_request_error_spec_none (s : HalfmoonCrossBridge)
    (k msg : String) (hget : mapGet s.requests k = none) :
    s.set_request_error s.owner k msg = (s, .error .RequestNotFound) := by
  simp [HalfmoonCrossBridge.set_request_error, hget]

theorem set_request_error_spec_some (s : HalfmoonCrossBridge)
    (k msg : String) (r : BridgeRequest)
    (hget : mapGet s.requests k = some r) :
    s.set_request_error s.owner k msg =
      match r.status with
      | RequestStatus.Doing th =>
        (writeBack s k r (RequestStatus.Error th msg), Except.ok ())
      | _ =>
        (s, Except.error
          (BridgeError.InvalidTransition "expect request to be Doing")) := by
  cases hst : r.status <;>
    simp [HalfmoonCrossBridge.set_request_error, hget, hst, writeBack]

theorem add_bridge_request_spec (s : HalfmoonCrossBridge)
    (pred tb tok addr : String) (dep : Nat) :
    s.add_bridge_request pred dep tb tok addr none =
      match mapGet s.requests pred with
      | some r =>
        match r.status with
        | RequestStatus.Error _ _ =>
          ({ s with requests :=
              mapInsert s.requests pred (newRequest tb tok addr dep) },
            Except.ok ())
        | RequestStatus.Done _ =>
          ({ s with requests :=
              mapInsert s.requests pred (newRequest tb tok addr dep) },
            Except.ok ())
        | _ => (s, Except.error BridgeError.UnfinishedRequestExists)
      | none =>
        ({ s with requests :=
            mapInsert s.requests pred (newRequest tb tok addr dep) },
          Except.ok ()) := by
  cases hget : mapGet s.requests pred with
  | none => simp [HalfmoonCrossBridge.add_bridge_request, hget, newRequest]
  | some r =>
    cases hst : r.status <;>
      simp [HalfmoonCrossBridge.add_bridge_request, hget, hst, newRequest]

theorem set_request_non_owner (s : HalfmoonCrossBridge)
    (c k hsh msg : String) (hc : c ≠ s.owner) :
    s.set_request_doing c k hsh = (s, .error .NotOwner)
    ∧ s.set_request_done c k = (s, .error .NotOwner)
    ∧ s.set_request_error c k msg = (s, .error .NotOwner) := by
  refine ⟨?_, ?_, ?_⟩ <;>
    simp [HalfmoonCrossBridge.set_request_doing,
      HalfmoonCrossBridge.set_request_done,
      HalfmoonCrossBridge.set_request_error, hc]

theorem add_error_state (s : HalfmoonCrossBridge)
    (pred tb tok addr : String) (dep : Nat) (fta : Option String)
    (e : BridgeError)
    (h : (s.add_bridge_request pred dep tb tok addr fta).2 = .error e) :
    (s.add_bridge_request pred dep tb tok addr fta).1 = s := by
  cases fta with
  | some x => rfl
  | none =>
    rw [add_bridge_request_spec] at h ⊢
    cases hget : mapGet s.requests pred with
    | none => simp [hget] at h
    | some r => cases hst : r.status <;> simp [hget, hst] at h ⊢

theorem doing_error_state (s : HalfmoonCrossBridge) (pred k hsh : String)
    (e : BridgeError)
    (h : (s.set_request_doing pred k hsh).2 = .error e) :
    (s.set_request_doing pred k hsh).1 = s := by
  by_cases hp : pred = s.owner
  · subst hp
    cases hget : mapGet s.requests k with
    | none => rw [set_request_doing_spec_none s k hsh hget]
    | some r =>
      rw [set_request_doing_spec_some s k hsh r hget] at h ⊢
      cases hst : r.status <;> simp [hst] at h ⊢
  · rw [(set_request_non_owner s pred k hsh "" hp).1]

theorem done_error_state (s : HalfmoonCrossBridge) (pred k : String)
    (e : BridgeError)
    (h : (s.set_request_done pred k).2 = .error e) :
    (s.set_request_done pred k).1 = s := by
  by_cases hp : pred = s.owner
  · subst hp
    cases hget : mapGet s.requests k with
    | none => rw [set_request_done_spec_none s k hget]
    | some r =>
      rw [set_request_done_spec_some s k r hget] at h ⊢
      cases hst : r.status <;> simp [hst] at h ⊢
  · rw [(set_request_non_owner s pred k "" "" hp).2.1]

theorem error_error_state (s : HalfmoonCrossBridge) (pred k msg : String)
    (e : BridgeError)
    (h : (s.set_request_error pred k msg).2 = .error e) :
    (s.set_request_error pred k msg).1 = s := by
  by_cases hp : pred = s.owner
  · subst hp
    cases hget : mapGet s.requests k with
    | none => rw [set_request_error_spec_none s k msg hget]
    | some r =>
      rw [set_request_error_spec_some s k msg r hget] at h ⊢
      cases hst : r.status <;> simp [hst] at h ⊢
  · rw [(set_request_non_owner s pred k "" msg hp).2.2]

theorem add_owner_preserved (s : HalfmoonCrossBridge)
    (pred tb tok addr : String) (dep : Nat) (fta : Option String) :
    (s.add_bridge_request pred dep tb tok addr fta).1.owner = s.owner := by
  cases fta with
  | some x => rfl
  | none =>
    rw [add_bridge_request_spec]
    cases hget : mapGet s.requests pred with
    | none => rfl
    | some r => cases hst : r.status <;> simp [hget, hst]

theorem doing_owner_preserved (s : HalfmoonCrossBridge)
    (pred k hsh : String) :
    (s.set_request_doing pred k hsh).1.owner = s.owner := by
  by_cases hp : pred = s.owner
  · subst hp
    cases hget : mapGet s.requests k with
    | none => rw [set_request_doing_spec_none s k hsh hget]
    | some r =>
      rw [set_request_doing_spec_some s k hsh r hget]
      cases hst : r.status <;> simp [writeBack]
  · rw [(set_request_non_owner s pred k hsh "" hp).1]

theorem done_owner_preserved (s : HalfmoonCrossBridge) (pred k : String) :
    (s.set_request_done pred k).1.owner = s.owner := by
  by_cases hp : pred = s.owner
  · subst hp
    cases hget : mapGet s.requests k with
    | none => rw [set_request_done_spec_none s k hget]
    | some r =>
      rw [set_request_done_spec_some s k r hget]
      cases hst : r.status <;> simp [writeBack]
  · rw [(set_request_non_owner s pred k "" "" hp).2.1]

theorem error_owner_preserved (s : HalfmoonCrossBridge)
    (pred k msg : String) :
    (s.set_request_error pred k msg).1.owner = s.owner := by
  by_cases hp : pred = s.owner
  · subst hp
    cases hget : mapGet s.requests k with
    | none => rw [set_request_error_spec_none s k msg hget]
    | some r =>
      rw [set_request_error_spec_some s k msg r hget]
      cases hst : r.status <;> simp [writeBack]
  · rw [(set_request_non_owner s pred k "" msg hp).2.2]

/-- C3: every call of `set_request_doing`, `set_request_done` or
`set_request_error` by a caller identity different from the fixed owner
fails with `NotOwner`, and the returned state — hence the stored record for
the targeted key, if any — is exactly the state before the call. -/
theorem transitions_by_non_operator_rejected (s : HalfmoonCrossBridge)
    (c k hsh msg : String) (hc : c ≠ s.owner) :
    s.set_request_doing c k hsh = (s, .error .NotOwner)
    ∧ s.set_request_done c k = (s, .error .NotOwner)
    ∧ s.set_request_error c k msg = (s, .error .NotOwner) :=
  set_request_non_owner s c k hsh msg hc

/-- Witness for C3: the non-operator caller "alice" is rejected on the
concrete empty state. -/
theorem transitions_by_non_operator_rejected_witness :
    "alice" ≠ emptyState.owner
    ∧ (emptyState.set_request_doing "alice" "bob" "H" =
        (emptyState, .error .NotOwner)
      ∧ emptyState.set_request_done "alice" "bob" =
        (emptyState, .error .NotOwner)
      ∧ emptyState.set_request_error "alice" "bob" "m" =
        (emptyState, .error .NotOwner)) :=
  ⟨by decide,
    transitions_by_non_operator_rejected emptyState "alice" "bob" "H" "m"
      (by decide)⟩

/-- C4: for every operation of the controller and every starting state, a
call that fails with any error returns the store exactly as it was before
the call; no call leaves a partial write. -/
theorem failure_leaves_store_unchanged (s : HalfmoonCrossBridge)
    (pred k tb tok addr hsh msg : String) (dep : Nat) (fta : Option String)
    (e : BridgeError) :
    ((s.add_bridge_request pred dep tb tok addr fta).2 = .error e →
      (s.add_bridge_request pred dep tb tok addr fta).1 = s)
    ∧ ((s.set_request_doing pred k hsh).2 = .error e →
      (s.set_request_doing pred k hsh).1 = s)
    ∧ ((s.set_request_done pred k).2 = .error e →
      (s.set_request_done pred k).1 = s)
    ∧ ((s.set_request_error pred k msg).2 = .error e →
      (s.set_request_error pred k msg).1 = s) :=
  ⟨add_error_state s pred tb tok addr dep fta e,
    doing_error_state s pred k hsh e,
    done_error_state s pred k e,
    error_error_state s pred k msg e⟩

/-- Witness for C4: a failing token-funded create on the concrete empty
state leaves the state unchanged. -/
theorem failure_leaves_store_unchanged_witness :
    (emptyState.add_bridge_request "alice" 0 "b" "t" "a" (some "x")).2 =
        .error .NotImplemented
    ∧ (emptyState.add_bridge_request "alice" 0 "b" "t" "a" (some "x")).1 =
        emptyState :=
  ⟨rfl, (failure_leaves_store_unchanged emptyState "alice" "k" "b" "t" "a"
    "h" "m" 0 (some "x") .NotImplemented).1 rfl⟩

/-- C7: every call to `add_bridge_request` in which `from_token_address` is
present fails with `NotImplemented`, regardless of the caller's existing
record, and performs no write. -/
theorem token_funded_create_not_implemented (s : HalfmoonCrossBridge)
    (pred tb tok addr x : String) (dep : Nat) :
    s.add_bridge_request pred dep tb tok addr (some x) =
      (s, .error .NotImplemented) := rfl

/-- C9: `new` fails with `InvalidOwner` when the operator identity is not
valid, fails with `AlreadyInitialized` when instance state already exists,
and otherwise establishes the operator; no exposed operation changes the
stored owner afterward. -/
theorem construct_establishes_fixed_operator (ex : Bool)
    (valid : AccountId → Bool) (oid : AccountId) (s : HalfmoonCrossBridge)
    (pred k tb tok addr hsh msg : String) (dep : Nat) (fta : Option String) :
    (valid oid = false →
      HalfmoonCrossBridge.new ex valid oid = .error .InvalidOwner)
    ∧ (valid oid = true → ex = true →
      HalfmoonCrossBridge.new ex valid oid = .error .AlreadyInitialized)
    ∧ (valid oid = true → ex = false →
      HalfmoonCrossBridge.new ex valid oid =
        .ok { owner := oid, requests := [] })
    ∧ (s.add_bridge_request pred dep tb tok addr fta).1.owner = s.owner
    ∧ (s.set_request_doing pred k hsh).1.owner = s.owner
    ∧ (s.set_request_done pred k).1.owner = s.owner
    ∧ (s.set_request_error pred k msg).1.owner = s.owner := by
  refine ⟨?_, ?_, ?_, add_owner_preserved s pred tb tok addr dep fta,
    doing_owner_preserved s pred k hsh, done_owner_preserved s pred k,
    error_owner_preserved s pred k msg⟩
  · intro hv
    simp [HalfmoonCrossBridge.new, hv]
  · intro hv hx
    simp [HalfmoonCrossBridge.new, hv, hx]
  · intro hv hx
    simp [HalfmoonCrossBridge.new, hv, hx]

/-- Witness for C9: on a fresh instance with an always-valid identity
check, `new` installs the given operator. -/
theorem construct_establishes_fixed_operator_witness :
    (fun _ : AccountId => true) "op" = true
    ∧ false = false
    ∧ HalfmoonCrossBridge.new false (fun _ => true) "op" =
        .ok { owner := "op", requests := [] } :=
  ⟨rfl, rfl,
    (construct_establishes_fixed_operator false (fun _ => true) "op"
      emptyState "p" "k" "b" "t" "a" "h" "m" 0 none).2.2.1 rfl rfl⟩


/-- C1: with the operator as caller, `set_request_doing` succeeds — writing
status `Doing` back for the key — iff the stored status is `Created`;
`set_request_done` and `set_request_error` succeed iff the stored status is
`Doing`; every other (status, transition) pair fails with
`InvalidTransition` naming the expected status, leaving the state
unchanged; and each operation fails with `RequestNotFound` when no record
exists for the key. -/
theorem operator_transition_totality (s : HalfmoonCrossBridge)
    (k hsh msg : String) :
    (∀ r, mapGet s.requests k = some r →
      (r.status = RequestStatus.Created ↔
          s.set_request_doing s.owner k hsh =
            (writeBack s k r (RequestStatus.Doing hsh), .ok ()))
      ∧ (r.status ≠ RequestStatus.Created →
          s.set_request_doing s.owner k hsh =
            (s, .error (.InvalidTransition "expect request to be Created")))
      ∧ ((∃ th, r.status = RequestStatus.Doing th) ↔
          (s.set_request_done s.owner k).2 = .ok ())
      ∧ ((∀ th, r.status ≠ RequestStatus.Doing th) →
          s.set_request_done s.owner k =
            (s, .error (.InvalidTransition "expect request to be Doing")))
      ∧ ((∃ th, r.status = RequestStatus.Doing th) ↔
          (s.set_request_error s.owner k msg).2 = .ok ())
      ∧ ((∀ th, r.status ≠ RequestStatus.Doing th) →
          s.set_request_error s.owner k msg =
            (s, .error (.InvalidTransition "expect request to be Doing"))))
    ∧
    (mapGet s.requests k = none →
      s.set_request_doing s.owner k hsh = (s, .error .RequestNotFound)
      ∧ s.set_request_done s.owner k = (s, .error .RequestNotFound)
      ∧ s.set_request_error s.owner k msg =
          (s, .error .RequestNotFound)) := by
  constructor
  · intro r hget
    rw [set_request_doing_spec_some s k hsh r hget,
      set_request_done_spec_some s k r hget,
      set_request_error_spec_some s k msg r hget]
    cases hst : r.status <;> simp [hst]
  · intro hget
    exact ⟨set_request_doing_spec_none s k hsh hget,
      set_request_done_spec_none s k hget,
      set_request_error_spec_none s k msg hget⟩

/-- Witness for C1: on the concrete one-record `Created` state the
operator's `set_request_doing` performs the `Doing` write. -/
theorem operator_transition_totality_witness :
    mapGet (sampleState RequestStatus.Created).requests "alice" =
        some (sampleReq RequestStatus.Created)
    ∧ (sampleState RequestStatus.Created).set_request_doing "op" "alice"
        "H" =
      (writeBack (sampleState RequestStatus.Created) "alice"
        (sampleReq RequestStatus.Created) (RequestStatus.Doing "H"),
        .ok ()) :=
  ⟨rfl,
    (((operator_transition_totality (sampleState RequestStatus.Created)
      "alice" "H" "m").1 (sampleReq RequestStatus.Created) rfl).1).mp rfl⟩

/-- C2: a native-funded `add_bridge_request` fails with
`UnfinishedRequestExists` iff the caller's existing record has status
`Created` or `Doing` — and then no write occurs; with no record or a
`Done`/`Error` record the call succeeds, overwriting the caller's slot
with the new record. -/
theorem creation_gate (s : HalfmoonCrossBridge)
    (pred tb tok addr : String) (dep : Nat) :
    ((s.add_bridge_request pred dep tb tok addr none).2 =
        .error .UnfinishedRequestExists ↔
      (∃ r, mapGet s.requests pred = some r ∧
        (r.status = RequestStatus.Created ∨
          ∃ th, r.status = RequestStatus.Doing th)))
    ∧
    ((∃ r, mapGet s.requests pred = some r ∧
        (r.status = RequestStatus.Created ∨
          ∃ th, r.status = RequestStatus.Doing th)) →
      s.add_bridge_request pred dep tb tok addr none =
        (s, .error .UnfinishedRequestExists))
    ∧
    ((¬ ∃ r, mapGet s.requests pred = some r ∧
        (r.status = RequestStatus.Created ∨
          ∃ th, r.status = RequestStatus.Doing th)) →
      s.add_bridge_request pred dep tb tok addr none =
        (insertRequest s pred (newRequest tb tok addr dep), .ok ())) := by
  rw [add_bridge_request_spec]
  cases hget : mapGet s.requests pred with
  | none => simp [hget, insertRequest]
  | some r => cases hst : r.status <;> simp [hget, hst, insertRequest]

/-- Witness for C2: on the concrete one-record `Created` state a second
create by the same caller is rejected. -/
theorem creation_gate_witness :
    ((sampleState RequestStatus.Created).add_bridge_request "alice" 0 "b"
      "t" "a" none).2 = .error .UnfinishedRequestExists :=
  (creation_gate (sampleState RequestStatus.Created) "alice" "b" "t" "a"
    0).1.mpr ⟨sampleReq RequestStatus.Created, rfl, Or.inl rfl⟩

/-- C5: a successful `set_request_done` on a record with status
`Doing { to_txn_hash := h }` writes status `Done { to_txn_hash := h }`, a
successful `set_request_error` with message `e` writes
`Error { to_txn_hash := h, error := e }` — the hash carried over unchanged
— and every field of the record other than `status` is unchanged by each
of the three status transitions (`writeBack` replaces only `status`). -/
theorem transition_preserves_fields (s : HalfmoonCrossBridge)
    (k hsh th msg : String) (r : BridgeRequest)
    (hget : mapGet s.requests k = some r) :
    (r.status = RequestStatus.Doing th →
      s.set_request_done s.owner k =
        (writeBack s k r (RequestStatus.Done th), .ok ())
      ∧ s.set_request_error s.owner k msg =
        (writeBack s k r (RequestStatus.Error th msg), .ok ()))
    ∧
    (r.status = RequestStatus.Created →
      s.set_request_doing s.owner k hsh =
        (writeBack s k r (RequestStatus.Doing hsh), .ok ())) := by
  refine ⟨fun hst => ?_, fun hst => ?_⟩
  · rw [set_request_done_spec_some s k r hget,
      set_request_error_spec_some s k msg r hget, hst]
    exact ⟨rfl, rfl⟩
  · rw [set_request_doing_spec_some s k hsh r hget, hst]

/-- Witness for C5: on the concrete one-record `Doing "H"` state the
operator's `set_request_done` carries the hash into `Done "H"`. -/
theorem transition_preserves_fields_witness :
    mapGet (sampleState (RequestStatus.Doing "H")).requests "alice" =
        some (sampleReq (RequestStatus.Doing "H"))
    ∧ (sampleState (RequestStatus.Doing "H")).set_request_done "op"
        "alice" =
      (writeBack (sampleState (RequestStatus.Doing "H")) "alice"
        (sampleReq (RequestStatus.Doing "H")) (RequestStatus.Done "H"),
        .ok ()) :=
  ⟨rfl,
    ((transition_preserves_fields (sampleState (RequestStatus.Doing "H"))
      "alice" "h2" "H" "m" (sampleReq (RequestStatus.Doing "H")) rfl).1
      rfl).1⟩

theorem add_ok_state (s : HalfmoonCrossBridge) (pred tb tok addr : String)
    (dep : Nat)
    (h : (s.add_bridge_request pred dep tb tok addr none).2 = .ok ()) :
    (s.add_bridge_request pred dep tb tok addr none).1 =
      insertRequest s pred (newRequest tb tok addr dep) := by
  rw [add_bridge_request_spec] at h ⊢
  cases hget : mapGet s.requests pred with
  | none => simp [hget, insertRequest]
  | some r => cases hst : r.status <;> simp [hget, hst, insertRequest] at h ⊢

/-- C6: every successful native-funded `add_bridge_request` with attached
value `dep` writes, under the caller's own identity, a record with status
`Created` and `from_amount_atom` the decimal string of `dep`, and that
record is returned by `get_request_status` for the caller. -/
theorem create_success_record_visible (s s2 : HalfmoonCrossBridge)
    (pred tb tok addr : String) (dep : Nat)
    (h : s.add_bridge_request pred dep tb tok addr none = (s2, .ok ())) :
    s2.get_request_status pred = some (newRequest tb tok addr dep)
    ∧ (newRequest tb tok addr dep).status = RequestStatus.Created
    ∧ (newRequest tb tok addr dep).from_amount_atom = toString dep := by
  refine ⟨?_, rfl, rfl⟩
  have h1 : (s.add_bridge_request pred dep tb tok addr none).1 = s2 :=
    congrArg Prod.fst h
  have h2 : (s.add_bridge_request pred dep tb tok addr none).2 = .ok () :=
    congrArg Prod.snd h
  have h3 := add_ok_state s pred tb tok addr dep h2
  rw [h1] at h3
  rw [h3]
  simp [HalfmoonCrossBridge.get_request_status, insertRequest,
    mapGet_mapInsert]

/-- Witness for C6: creating with attached value 0 on the empty state
makes the record visible with `from_amount_atom = "0"`. -/
theorem create_success_record_visible_witness :
    emptyState.add_bridge_request "alice" 0 "Algorand" "goNEAR" "ADDR1"
        none =
      (insertRequest emptyState "alice"
        (newRequest "Algorand" "goNEAR" "ADDR1" 0), .ok ())
    ∧ ((insertRequest emptyState "alice"
          (newRequest "Algorand" "goNEAR" "ADDR1" 0)).get_request_status
        "alice" = some (newRequest "Algorand" "goNEAR" "ADDR1" 0)
      ∧ (newRequest "Algorand" "goNEAR" "ADDR1" 0).status =
        RequestStatus.Created
      ∧ (newRequest "Algorand" "goNEAR" "ADDR1" 0).from_amount_atom =
        "0") :=
  ⟨rfl,
    create_success_record_visible emptyState
      (insertRequest emptyState "alice"
        (newRequest "Algorand" "goNEAR" "ADDR1" 0))
      "alice" "Algorand" "goNEAR" "ADDR1" 0 rfl⟩

/-- C8: a non-operator caller observes `NotOwner` from each mutating
operator operation, and the observed result is identical across any two
states sharing the same owner — in particular across states that differ in
whether a record exists for the targeted key — because authorization is
decided before the record lookup. -/
theorem non_operator_error_uniform (s1 s2 : HalfmoonCrossBridge)
    (c k hsh msg : String) (howner : s1.owner = s2.owner)
    (hc : c ≠ s1.owner) :
    (s1.set_request_doing c k hsh).2 = .error .NotOwner
    ∧ (s1.set_request_doing c k hsh).2 = (s2.set_request_doing c k hsh).2
    ∧ (s1.set_request_done c k).2 = .error .NotOwner
    ∧ (s1.set_request_done c k).2 = (s2.set_request_done c k).2
    ∧ (s1.set_request_error c k msg).2 = .error .NotOwner
    ∧ (s1.set_request_error c k msg).2 = (s2.set_request_error c k msg).2
    := by
  have hc2 : c ≠ s2.owner := howner ▸ hc
  obtain ⟨d1, n1, e1⟩ := set_request_non_owner s1 c k hsh msg hc
  obtain ⟨d2, n2, e2⟩ := set_request_non_owner s2 c k hsh msg hc2
  rw [d1, d2, n1, n2, e1, e2]
  exact ⟨rfl, rfl, rfl, rfl, rfl, rfl⟩

/-- Witness for C8: the non-operator caller "alice" sees the same
`NotOwner` outcome on the empty state and on a state holding a record for
"alice". -/
theorem non_operator_error_uniform_witness :
    (emptyState.set_request_doing "alice" "alice" "H").2 =
      ((sampleState RequestStatus.Created).set_request_doing "alice"
        "alice" "H").2 :=
  (non_operator_error_uniform emptyState (sampleState RequestStatus.Created)
    "alice" "alice" "H" "m" rfl (by decide)).2.1

theorem storeOk_mapGet (m : List (AccountId × BridgeRequest))
    (k : AccountId) (r : BridgeRequest) (hok : storeOk m = true)
    (hget : mapGet m k = some r) : r.from_token_address = none := by
  induction m with
  | nil => simp [mapGet] at hget
  | cons hd tl ih =>
    obtain ⟨k1, v1⟩ := hd
    simp only [storeOk, List.all_cons, Bool.and_eq_true] at hok
    obtain ⟨h1ok, hrest⟩ := hok
    rw [mapGet] at hget
    by_cases h1 : k1 = k
    · rw [if_pos h1] at hget
      obtain rfl : v1 = r := Option.some.inj hget
      exact Option.isNone_iff_eq_none.mp h1ok
    · rw [if_neg h1] at hget
      exact ih hrest hget

theorem storeOk_mapInsert (m : List (AccountId × BridgeRequest))
    (k : AccountId) (v : BridgeRequest) (hok : storeOk m = true)
    (hv : v.from_token_address = none) :
    storeOk (mapInsert m k v) = true := by
  induction m with
  | nil => simp [mapInsert, storeOk, hv]
  | cons hd tl ih =>
    obtain ⟨k1, v1⟩ := hd
    simp only [storeOk, List.all_cons, Bool.and_eq_true] at hok
    obtain ⟨h1ok, hrest⟩ := hok
    by_cases h1 : k1 = k
    · simp [mapInsert, h1, storeOk, h1ok, hrest, hv]
    · have htl := ih hrest
      simp only [mapInsert, if_neg h1, storeOk, List.all_cons,
        Bool.and_eq_true]
      exact ⟨h1ok, htl⟩

/-- C10: every record ever present in the store has
`from_token_address = none` — the invariant holds for the store created by
`new`, is preserved by every operation (the token-funded branch aborts
before any write and no other operation touches that field), and under it
`get_request_status` never returns a record with `from_token_address`
present. -/
theorem from_token_address_never_present (ex : Bool)
    (valid : AccountId → Bool) (oid : AccountId)
    (s s0 : HalfmoonCrossBridge) (pred k tb tok addr hsh msg : String)
    (dep : Nat) (fta : Option String) (r : BridgeRequest) :
    (HalfmoonCrossBridge.new ex valid oid = .ok s0 →
      storeOk s0.requests = true)
    ∧ (storeOk s.requests = true →
      storeOk (s.add_bridge_request pred dep tb tok addr fta).1.requests =
        true)
    ∧ (storeOk s.requests = true →
      storeOk (s.set_request_doing pred k hsh).1.requests = true)
    ∧ (storeOk s.requests = true →
      storeOk (s.set_request_done pred k).1.requests = true)
    ∧ (storeOk s.requests = true →
      storeOk (s.set_request_error pred k msg).1.requests = true)
    ∧ (storeOk s.requests = true → s.get_request_status k = some r →
      r.from_token_address = none) := by
  refine ⟨?_, ?_, ?_, ?_, ?_, ?_⟩
  · intro h
    unfold HalfmoonCrossBridge.new at h
    split at h
    · simp at h
    · split at h
      · simp at h
      · cases h
        rfl
  · intro hok
    cases fta with
    | some x => exact hok
    | none =>
      rw [add_bridge_request_spec]
      cases hget : mapGet s.requests pred with
      | none =>
        simp only [hget]
        exact storeOk_mapInsert s.requests pred (newRequest tb tok addr dep)
          hok rfl
      | some r2 =>
        cases hst : r2.status <;> simp only [hget, hst] <;>
          first
          | exact hok
          | exact storeOk_mapInsert s.requests pred
              (newRequest tb tok addr dep) hok rfl
  · intro hok
    by_cases hp : pred = s.owner
    · subst hp
      cases hget : mapGet s.requests k with
      | none =>
        rw [set_request_doing_spec_none s k hsh hget]
        exact hok
      | some r2 =>
        rw [set_request_doing_spec_some s k hsh r2 hget]
        cases hst : r2.status <;> simp only [hst, writeBack] <;>
          first
          | exact hok
          | exact storeOk_mapInsert s.requests k _ hok
              (storeOk_mapGet s.requests k r2 hok hget)
    · rw [(set_request_non_owner s pred k hsh msg hp).1]
      exact hok
  · intro hok
    by_cases hp : pred = s.owner
    · subst hp
      cases hget : mapGet s.requests k with
      | none =>
        rw [set_request_done_spec_none s k hget]
        exact hok
      | some r2 =>
        rw [set_request_done_spec_some s k r2 hget]
        cases hst : r2.status <;> simp only [hst, writeBack] <;>
          first
          | exact hok
          | exact storeOk_mapInsert s.requests k _ hok
              (storeOk_mapGet s.requests k r2 hok hget)
    · rw [(set_request_non_owner s pred k hsh msg hp).2.1]
      exact hok
  · intro hok
    by_cases hp : pred = s.owner
    · subst hp
      cases hget : mapGet s.requests k with
      | none =>
        rw [set_request_error_spec_none s k msg hget]
        exact hok
      | some r2 =>
        rw [set_request_error_spec_some s k msg r2 hget]
        cases hst : r2.status <;> simp only [hst, writeBack] <;>
          first
          | exact hok
          | exact storeOk_mapInsert s.requests k _ hok
              (storeOk_mapGet s.requests k r2 hok hget)
    · rw [(set_request_non_owner s pred k hsh msg hp).2.2]
      exact hok
  · intro hok hq
    exact storeOk_mapGet s.requests k r hok hq

/-- Witness for C10: the invariant holds on the empty state and is kept by
a concrete successful create. -/
theorem from_token_address_never_present_witness :
    storeOk emptyState.requests = true
    ∧ storeOk
        ((emptyState.add_bridge_request "alice" 7 "b" "t" "a"
          none).1.requests) = true :=
  ⟨rfl,
    (from_token_address_never_present false (fun _ => true) "op" emptyState
      emptyState "alice" "k" "b" "t" "a" "h" "m" 7 none
      (sampleReq RequestStatus.Created)).2.1 rfl⟩
